import Mathlib

/-!
Verification development for the Hedera-HCS-10 DeSci platform.

The repository is a thin Node/Express service over MongoDB (mongoose),
GridFS blob storage and the Hedera SDK, plus an interactive research
agent (`src/desci-agent.js`).  This file gives a shallow embedding of
the request handlers, the mongoose model operations and the agent's
command loop, and proves or refutes the frozen specification claims
against that embedding.

Conventions of the embedding:
* the MongoDB collection of papers is a `List PaperDocument`, threaded
  explicitly through each handler (`handler : store → input →
  response × store`);
* JavaScript falsiness on request-body fields is modelled explicitly:
  a scalar body field is `Option String` (absent or a string, where an
  empty string is falsy), an array-or-string field is `BodyField`;
* `parseFloat` is modelled by its result: `Option ℚ` (`none` = NaN);
* mongoose `save` is modelled by `savePaper`, which performs the
  schema validation (`required` paths reject missing and empty
  strings) and then the unique-index check on `paperId`, exactly the
  two failure modes the real driver reports to the route's catch
  block;
* time-valued metadata (publishDate, timestamps) and the GridFS file
  fields stored on an uploaded document (filename, fileId, mimetype,
  size, uploadDate) are not read by any claim and are elided from the
  document structure; `lastAccessedAt` is kept because claim C8
  mentions it, with instants as `Nat`.
-/

/-- A value of a request-body field that the routes treat as
array-or-string (`authors`, `keywords` in `src/routes/paperRoutes.js`).
`missing` is JS `undefined`; a string is falsy iff empty; an array is
always truthy (even `[]`), matching JS semantics. -/
inductive BodyField where
  | missing
  | str (s : String)
  | arr (xs : List String)
deriving Repr, DecidableEq

/-- JS truthiness of a `BodyField` (`undefined` and `""` are falsy,
arrays are truthy). -/
def BodyField.truthy : BodyField → Bool
  | .missing => false
  | .str s => s != ""
  | .arr _ => true

/-- JS truthiness of a scalar (string-valued) body field. -/
def strTruthy : Option String → Bool
  | none => false
  | some s => s != ""

/-- `Array.isArray(v) ? v : [v]`, as applied to `authors` in
`src/routes/paperRoutes.js` line 168 (the `missing` case is
unreachable there because the route guard already required the field
to be truthy). -/
def BodyField.toAuthorsList : BodyField → List String
  | .arr xs => xs
  | .str s => [s]
  | .missing => []

/-- `Array.isArray(keywords) ? keywords : (keywords ? [keywords] : [])`
from `src/routes/paperRoutes.js` line 170. -/
def BodyField.toKeywordsList : BodyField → List String
  | .arr xs => xs
  | .str s => if s != "" then [s] else []
  | .missing => []

/-- The submitted `fee` body field, modelled by what `parseFloat`
makes of it: `missing` and `nonNumeric` both parse to NaN, `num q`
parses to the number `q` (JS numbers are modelled as rationals). -/
inductive FeeField where
  | missing
  | nonNumeric
  | num (q : ℚ)
deriving Repr, DecidableEq

/-- Result of `parseFloat(fee)`: `none` is NaN. -/
def parseFloatOpt : FeeField → Option ℚ
  | .missing => none
  | .nonNumeric => none
  | .num q => some q

/-- The fee expression `parseFloat(fee) || 10` used by both creation
endpoints (`src/routes/paperRoutes.js` lines 115 and 172): NaN and `0`
are falsy, so both coalesce to the default `10`. -/
def jsFeeOrDefault (f : FeeField) : ℚ :=
  match parseFloatOpt f with
  | none => 10
  | some q => if q = 0 then 10 else q

/-- A document of the `PaperDocument` mongoose model
(`src/models/PaperDocument.js`).  `content` is not a schema path; it
is carried to give meaning to the `{ content: 0 }` projection of
`searchPapers` (MongoDB documents are schemaless, so a raw document
may carry such an attribute).  File metadata and timestamps are elided
(no claim reads them). -/
structure PaperDocument where
  paperId : String
  title : String
  authors : List String
  abstract : String
  keywords : List String
  publisherId : String
  fee : ℚ
  contentTopicId : String
  accessCount : Nat
  lastAccessedAt : Option Nat
  content : Option String
deriving Repr, DecidableEq

/-- The two failure modes of a mongoose `save` that the routes can
observe: a schema validation error or the `E11000` duplicate-key error
from the unique index on `paperId`. -/
inductive SaveError where
  | validation
  | duplicate
deriving Repr, DecidableEq

/-- Mongoose schema validation of `PaperDocumentSchema`: the paths
`paperId`, `title`, `abstract`, `contentTopicId`, `publisherId` are
`required` (for strings this rejects both `undefined` and `""`), and
each element of `authors` is a required string. -/
def validPaperDoc (p : PaperDocument) : Bool :=
  p.paperId != "" && p.title != "" && p.abstract != "" &&
    p.contentTopicId != "" && p.publisherId != "" &&
    p.authors.all (fun a => a != "")

/-- `newPaper.save()`: validate against the schema, then insert,
subject to the unique index on `paperId`
(`src/models/PaperDocument.js` lines 15-20). -/
def savePaper (store : List PaperDocument) (p : PaperDocument) :
    Except SaveError (List PaperDocument) :=
  if !validPaperDoc p then .error .validation
  else if store.any (fun q => q.paperId == p.paperId) then .error .duplicate
  else .ok (store ++ [p])

/-- Response of `POST /api/papers` and `POST /api/papers/upload`. -/
inductive CreateResponse where
  | created (paperId title : String)
  | badRequest (msg : String)
  | serverError (msg : String)
deriving Repr, DecidableEq

/-- HTTP status of a creation response (201 / 400 / 500). -/
def CreateResponse.status : CreateResponse → Nat
  | .created _ _ => 201
  | .badRequest _ => 400
  | .serverError _ => 500

/-- The JSON body of `POST /api/papers` (`src/routes/paperRoutes.js`
lines 147-155). -/
structure CreatePayload where
  paperId : Option String
  title : Option String
  authors : BodyField
  abstract : Option String
  keywords : BodyField
  publisherId : Option String
  fee : FeeField
deriving Repr, DecidableEq

/-- The document built by the metadata-only creation route
(`src/routes/paperRoutes.js` lines 165-174); `contentTopicId` is the
main registry topic from `app.locals`. -/
def mkCreatedPaper (mainTopicId : String) (b : CreatePayload) : PaperDocument :=
  { paperId := b.paperId.getD ""
    title := b.title.getD ""
    authors := b.authors.toAuthorsList
    abstract := b.abstract.getD ""
    keywords := b.keywords.toKeywordsList
    publisherId := b.publisherId.getD ""
    fee := jsFeeOrDefault b.fee
    contentTopicId := mainTopicId
    accessCount := 0
    lastAccessedAt := none
    content := none }

/-- `router.post('/')` of `src/routes/paperRoutes.js` lines 145-189:
reject with 400 unless `paperId`, `title`, `authors`, `abstract`,
`publisherId` are all truthy, otherwise build the document and save
it; a save failure is reported by the catch block as a 500 whose
message is the driver's error message. -/
def createPaper (mainTopicId : String) (store : List PaperDocument)
    (b : CreatePayload) : CreateResponse × List PaperDocument :=
  if strTruthy b.paperId && strTruthy b.title && b.authors.truthy &&
      strTruthy b.abstract && strTruthy b.publisherId then
    let p := mkCreatedPaper mainTopicId b
    match savePaper store p with
    | .ok store' => (.created p.paperId p.title, store')
    | .error .validation =>
        (.serverError "PaperDocument validation failed", store)
    | .error .duplicate =>
        (.serverError "E11000 duplicate key error", store)
  else
    (.badRequest "Missing required fields", store)

/-- Response of `GET /api/papers/:id`. -/
inductive GetResponse where
  | ok (p : PaperDocument)
  | notFound
deriving Repr, DecidableEq

/-- HTTP status of a fetch-by-id response (200 / 404). -/
def GetResponse.status : GetResponse → Nat
  | .ok _ => 200
  | .notFound => 404

/-- `router.get('/:id')` of `src/routes/paperRoutes.js` lines 34-44:
`findOne({ paperId: req.params.id })`, 404 when absent.  The handler
performs no write, which the explicit store threading records: the
returned store is the input store in both branches. -/
def getPaperById (store : List PaperDocument) (id : String) :
    GetResponse × List PaperDocument :=
  match store.find? (fun p => p.paperId == id) with
  | some p => (.ok p, store)
  | none => (.notFound, store)

/-- The `recordAccess` instance method of
`src/models/PaperDocument.js` lines 72-76: increment `accessCount`
and set `lastAccessedAt` to the current time.  No route or agent code
path in the repository ever invokes it. -/
def recordAccess (p : PaperDocument) (now : Nat) : PaperDocument :=
  { p with accessCount := p.accessCount + 1, lastAccessedAt := some now }

/-- Model of `String.prototype.trim` (and of Lean's `String.trim`,
which is built on byte positions and does not reduce in the kernel):
drop whitespace from both ends. -/
def jsTrim (s : String) : String :=
  String.mk
    (((s.toList.dropWhile Char.isWhitespace).reverse.dropWhile
        Char.isWhitespace).reverse)

/-- Character-wise lower-casing (model of `toLowerCase` /
`String.toLower`). -/
def jsToLower (s : String) : String :=
  String.mk (s.toList.map Char.toLower)

/-- Split a character list on spaces, dropping empty fragments
(`acc` holds the current word reversed). -/
def tokenizeChars (acc : List Char) : List Char → List String
  | [] => if acc.isEmpty then [] else [String.mk acc.reverse]
  | c :: cs =>
    if c = ' ' then
      if acc.isEmpty then tokenizeChars [] cs
      else String.mk acc.reverse :: tokenizeChars [] cs
    else tokenizeChars (c :: acc) cs

/-- Tokenization of free text into search terms / indexed words:
split on spaces, dropping empty fragments.  This underlies the model
of MongoDB `$text` below. -/
def tokenize (s : String) : List String :=
  tokenizeChars [] s.toList

/-- The words of a document covered by the text index declared in
`src/models/PaperDocument.js` lines 65-69: `title`, `abstract` and
`keywords`. -/
def indexedWords (p : PaperDocument) : List String :=
  tokenize p.title ++ tokenize p.abstract ++ p.keywords

/-- Model of one `$text` search term matching a document:
case-insensitive equality with some indexed word. -/
def termMatches (p : PaperDocument) (t : String) : Bool :=
  (indexedWords p).any (fun w => jsToLower w == jsToLower t)

/-- Model of the MongoDB `$text` operator: a document matches a query
when at least one of the query's terms matches it (MongoDB ORs the
terms). -/
def textMatches (q : String) (p : PaperDocument) : Bool :=
  (tokenize q).any (termMatches p)

/-- Model of the `$meta: "textScore"` relevance score: the number of
query terms the document matches.  Only its ordering is used by any
claim. -/
def textScore (q : String) (p : PaperDocument) : Nat :=
  ((tokenize q).filter (termMatches p)).length

/-- Insertion step of the descending-score sort modelling
`.sort({ score: { $meta: "textScore" } })`. -/
def insertByScoreDesc (q : String) (p : PaperDocument) :
    List PaperDocument → List PaperDocument
  | [] => [p]
  | x :: xs =>
    if textScore q x ≤ textScore q p then p :: x :: xs
    else x :: insertByScoreDesc q p xs

/-- Sort a result list by descending text score (a stable insertion
sort; MongoDB leaves ties in unspecified order, so any
descending-score order is a faithful model). -/
def sortByScoreDesc (q : String) : List PaperDocument → List PaperDocument
  | [] => []
  | x :: xs => insertByScoreDesc q x (sortByScoreDesc q xs)

/-- A list is ordered by descending text score for query `q` (each
adjacent pair is non-increasing). -/
def sortedByScoreDesc (q : String) : List PaperDocument → Prop
  | [] => True
  | [_] => True
  | a :: b :: rest =>
    textScore q b ≤ textScore q a ∧ sortedByScoreDesc q (b :: rest)

/-- The `{ content: 0 }` projection used by the empty-query branch of
`searchPapers`: drop the raw `content` attribute, keep every schema
field. -/
def excludeContent (p : PaperDocument) : PaperDocument :=
  { p with content := none }

/-- The `searchPapers` static of `src/models/PaperDocument.js` lines
79-88: an absent/blank query returns `find({}, { content: 0 })` (every
document, content projected away); otherwise a `$text` search sorted
by descending text score. -/
def searchPapers (query : String) (store : List PaperDocument) :
    List PaperDocument :=
  if jsTrim query == "" then store.map excludeContent
  else sortByScoreDesc query (store.filter (textMatches query))

/-- An uploaded multipart file as multer presents it (only the
attributes the middleware inspects). -/
structure UploadedFile where
  size : Nat
  originalname : String
  mimetype : String
deriving Repr, DecidableEq

/-- The literal alternatives of the regex
`/pdf|docx|txt|md|tex|csv|xlsx|zip/` in `src/server.js` line 81. -/
def allowedTypeTokens : List String :=
  ["pdf", "docx", "txt", "md", "tex", "csv", "xlsx", "zip"]

/-- `pat` occurs at the start of `s` (on character lists). -/
def charsStartWith : List Char → List Char → Bool
  | [], _ => true
  | _ :: _, [] => false
  | a :: as, b :: bs => a == b && charsStartWith as bs

/-- `pat` occurs somewhere inside `s` (on character lists). -/
def charsContain (pat : List Char) : List Char → Bool
  | [] => charsStartWith pat []
  | b :: bs => charsStartWith pat (b :: bs) || charsContain pat bs

/-- `regex.test(s)` for that alternation of literals: some alternative
occurs as a substring of `s`. -/
def typeRegexTest (s : String) : Bool :=
  allowedTypeTokens.any (fun t => charsContain t.toList s.toList)

/-- The characters after the last dot of a list, or `none` when no
dot occurs. -/
def afterLastDot : List Char → Option (List Char)
  | [] => none
  | c :: cs =>
    match afterLastDot cs with
    | some r => some r
    | none => if c = '.' then some cs else none

/-- `path.extname(name)`: the final dot-suffix including the dot, or
`""` when the name has no dot.  (The Node special case of a bare
leading-dot file name is not modelled; no claim exercises it.) -/
def extnameOf (name : String) : String :=
  match afterLastDot name.toList with
  | none => ""
  | some ext => String.mk ('.' :: ext)

/-- The multer `fileFilter` of `src/server.js` lines 79-90: both the
mimetype and the lower-cased extension must match the type regex. -/
def fileTypeOk (f : UploadedFile) : Bool :=
  typeRegexTest f.mimetype && typeRegexTest (jsToLower (extnameOf f.originalname))

/-- The multer size ceiling, `limits: { fileSize: 30 * 1024 * 1024 }`
(`src/server.js` line 78). -/
def uploadLimitBytes : Nat := 30 * 1024 * 1024

/-- `upload.single('file')`: multer runs the `fileFilter` when the
file part arrives and aborts with `LIMIT_FILE_SIZE` once the streamed
bytes exceed `uploadLimitBytes`; either failure reaches the route
callback as `err`.  `ok none` is a request with no file part. -/
def multerSingle (file : Option UploadedFile) :
    Except String (Option UploadedFile) :=
  match file with
  | none => .ok none
  | some f =>
    if !fileTypeOk f then
      .error "Invalid file type. Allowed types: PDF, DOCX, TXT, MD, TEX, CSV, XLSX, ZIP"
    else if f.size > uploadLimitBytes then
      .error "File too large"
    else .ok (some f)

/-- The multipart body of `POST /api/papers/upload`.  `authors` /
`keywords` may arrive either under the plain name or under the
bracketed form-field name `authors[]` / `keywords[]`, which the route
reads separately (`src/routes/paperRoutes.js` lines 85-95). -/
structure UploadPayload where
  paperId : Option String
  title : Option String
  authors : BodyField
  authorsBracket : BodyField
  abstract : Option String
  keywords : BodyField
  keywordsBracket : BodyField
  publisherId : Option String
  fee : FeeField
deriving Repr, DecidableEq

/-- The array extraction of `src/routes/paperRoutes.js` lines 85-95:
start from `[]`; when the plain field is truthy, take it if it is an
array, otherwise fall back to the bracketed field (array as is, truthy
scalar wrapped in a list, anything else `[]`). -/
def uploadArrField (v vb : BodyField) : List String :=
  if v.truthy then
    match v with
    | .arr xs => xs
    | _ =>
      match vb with
      | .arr ys => ys
      | .str t => if t != "" then [t] else []
      | .missing => []
  else []

/-- Authors of an upload request. -/
def uploadAuthors (b : UploadPayload) : List String :=
  uploadArrField b.authors b.authorsBracket

/-- Keywords of an upload request. -/
def uploadKeywords (b : UploadPayload) : List String :=
  uploadArrField b.keywords b.keywordsBracket

/-- The document built by the upload route
(`src/routes/paperRoutes.js` lines 108-123); `contentTopicId` is the
id of the content topic freshly created for the paper (the Hedera
round trip is modelled by its resulting topic id). -/
def mkUploadedPaper (contentTopicId : String) (b : UploadPayload) :
    PaperDocument :=
  { paperId := b.paperId.getD ""
    title := b.title.getD ""
    authors := uploadAuthors b
    abstract := b.abstract.getD ""
    keywords := uploadKeywords b
    publisherId := b.publisherId.getD ""
    fee := jsFeeOrDefault b.fee
    contentTopicId := contentTopicId
    accessCount := 0
    lastAccessedAt := none
    content := none }

/-- `router.post('/upload')` of `src/routes/paperRoutes.js` lines
47-142: a multer error is a 400 with the error's message; a missing
file part is a 400; otherwise the route creates a content topic,
builds the document (note: with no required-field pre-check) and saves
it, reporting a save failure as a 500 from the catch block. -/
def uploadRoute (newTopicId : String) (store : List PaperDocument)
    (b : UploadPayload) (file : Option UploadedFile) :
    CreateResponse × List PaperDocument :=
  match multerSingle file with
  | .error msg => (.badRequest msg, store)
  | .ok none => (.badRequest "No file uploaded", store)
  | .ok (some _) =>
    let p := mkUploadedPaper newTopicId b
    match savePaper store p with
    | .ok store' => (.created p.paperId p.title, store')
    | .error .validation =>
        (.serverError "PaperDocument validation failed", store)
    | .error .duplicate =>
        (.serverError "E11000 duplicate key error", store)

/-- The paper summary returned in the `papers` array of
`POST /api/chat` (`src/routes/chatRoutes.js` lines 84-89). -/
structure ChatPaper where
  paperId : String
  title : String
  authors : List String
  fee : ℚ
deriving Repr, DecidableEq

/-- Response of `POST /api/chat`. -/
inductive ChatResult where
  | ok (reply : String) (papers : List ChatPaper)
  | badRequest (msg : String)
deriving Repr, DecidableEq

/-- HTTP status of a chat response (200 / 400). -/
def ChatResult.status : ChatResult → Nat
  | .ok _ _ => 200
  | .badRequest _ => 400

/-- The paper search of the chat route (`src/routes/chatRoutes.js`
lines 34-39): `$text` search on the message, sorted by descending
text score, limited to 3. -/
def chatSearch (message : String) (store : List PaperDocument) :
    List PaperDocument :=
  (sortByScoreDesc message (store.filter (textMatches message))).take 3

/-- `abstract.substring(0, n)`: the first `n` characters. -/
def jsSubstringTo (n : Nat) (s : String) : String :=
  String.mk (s.toList.take n)

/-- One numbered entry of the fallback reply for a relevant paper
(`src/routes/chatRoutes.js` lines 71-74). -/
def fallbackEntry (i : Nat) (p : PaperDocument) : String :=
  toString (i + 1) ++ ". \x22" ++ p.title ++ "\x22 by " ++
    String.intercalate ", " p.authors ++ "\n   Abstract: " ++
    jsSubstringTo 150 p.abstract ++ "...\n\n"

/-- The template reply used when no OpenAI key is configured
(`src/routes/chatRoutes.js` lines 66-79). -/
def fallbackReply (message : String) (relevant : List PaperDocument) :
    String :=
  let base := "I received your message: \x22" ++ message ++ "\x22. "
  if relevant.length > 0 then
    base ++ "I found " ++ toString relevant.length ++
      " papers that might be relevant to your query:\n\n" ++
      String.join (relevant.enum.map (fun e => fallbackEntry e.1 e.2)) ++
      "You can access these papers by paying the access fee with the /pay command."
  else
    base ++
      "I couldn\x27t find any specific papers related to your query. Please try a different search term."

/-- `router.post('/')` of `src/routes/chatRoutes.js` lines 23-95.
`llm` is the OpenAI completion as an oracle: `none` when no
`OPENAI_API_KEY` is configured (the fallback branch), otherwise a
function from the matched papers and the user message (the inputs the
route folds into the prompt) to the completion text, which the route
uses as the reply verbatim.  A falsy (empty) message is a 400. -/
def chatRoute (llm : Option (List PaperDocument → String → String))
    (store : List PaperDocument) (message : String) : ChatResult :=
  if message == "" then .badRequest "No message provided"
  else
    let relevant := chatSearch message store
    let reply :=
      match llm with
      | some complete => complete relevant message
      | none => fallbackReply message relevant
    .ok reply
      (relevant.map (fun p => ⟨p.paperId, p.title, p.authors, p.fee⟩))

/-- A paper summary of the `GET /api/papers` projection
(`src/routes/paperRoutes.js` lines 16-26). -/
structure PaperSummary where
  paperId : String
  title : String
  authors : List String
  abstract : String
  keywords : List String
  publisherId : String
  fee : ℚ
  accessCount : Nat
deriving Repr, DecidableEq

/-- The projection of the list endpoint. -/
def summarizePaper (p : PaperDocument) : PaperSummary :=
  ⟨p.paperId, p.title, p.authors, p.abstract, p.keywords,
    p.publisherId, p.fee, p.accessCount⟩

/-- Response of `GET /api/papers`. -/
inductive ListResponse where
  | ok (papers : List PaperSummary)
  | serverError (msg : String)
deriving Repr, DecidableEq

/-- `router.get('/')` of `src/routes/paperRoutes.js` lines 14-31.
`nodeEnv` is `process.env.NODE_ENV`; the handler never consults it:
its catch block answers any store failure with a 500 carrying the
upstream error's message verbatim (line 29), in every mode.  `dbResult`
is the outcome of the `find` call against the store. -/
def getAllPapers (nodeEnv : String)
    (dbResult : Except String (List PaperDocument)) : ListResponse :=
  match nodeEnv, dbResult with
  | _, .ok ps => .ok (ps.map summarizePaper)
  | _, .error e => .serverError e

/-- A response of the top-level Express error-handling middleware. -/
structure ErrorResponse where
  status : Nat
  message : String
deriving Repr, DecidableEq

/-- The error-handling middleware of `src/server.js` lines 170-176:
always a 500; the upstream error's message is passed through only when
`NODE_ENV === 'development'`, and every other mode (production, test,
unset, ...) gets the generic `'Server error occurred'`. -/
def errorMiddleware (nodeEnv : String) (errMessage : String) :
    ErrorResponse :=
  { status := 500
    message :=
      if nodeEnv == "development" then errMessage
      else "Server error occurred" }

/-- The denormalized paper snapshot kept on a chat session
(`relatedPapers` in `src/desci-agent.js` lines 84-89). -/
structure PaperRef where
  paperId : String
  title : String
  fee : ℚ
  contentTopicId : String
deriving Repr, DecidableEq

/-- A paper line of a quote (`src/desci-agent.js` lines 127-131). -/
structure QuotePaper where
  paperId : String
  title : String
  fee : ℚ
deriving Repr, DecidableEq

/-- The quote subdocument of a chat session (`src/desci-agent.js`
lines 91-96).  Named `AgentQuote` because `Quote` is taken by the
Lean core library. -/
structure AgentQuote where
  papersCost : ℚ
  platformFee : ℚ
  totalCost : ℚ
  papers : List QuotePaper
deriving Repr, DecidableEq

/-- `ChatSchema.methods.calculateQuote` (`src/desci-agent.js` lines
119-135): sum the selected papers' fees with `reduce`, take
`platformFeePercent` percent of that as the platform fee (default 5),
and total the two. -/
def calculateQuote (relatedPapers : List PaperRef)
    (platformFeePercent : ℚ) : AgentQuote :=
  let papersCost := relatedPapers.foldl (fun total paper => total + paper.fee) 0
  let platformFee := papersCost * platformFeePercent / 100
  { papersCost := papersCost
    platformFee := platformFee
    totalCost := papersCost + platformFee
    papers := relatedPapers.map (fun paper => ⟨paper.paperId, paper.title, paper.fee⟩) }

/-- The `paymentStatus` field of a chat session
(`src/desci-agent.js` line 90). -/
inductive PayStatus where
  | pending
  | paid
  | failed
deriving Repr, DecidableEq

/-- State of one agent chat session together with the module-level
`paidPapersCache` and a ledger-observation counter.
`quote = none` records that `calculateQuote` has not run (its numeric
subpaths are undefined); note that on the mongoose document the
`quote` schema path itself (`src/desci-agent.js` lines 91-96) is a
nested path — an ever-present object — in both cases, see
`quoteTruthy`.  `ledgerTransfers` counts executed
`TransferTransaction`s; the SDK class is imported by
`src/desci-agent.js` but never executed, so no step of the embedding
increments the counter. -/
structure AgentState where
  relatedPapers : List PaperRef
  quote : Option AgentQuote
  paymentStatus : PayStatus
  paidCache : List String
  ledgerTransfers : Nat
deriving Repr, DecidableEq

/-- The fresh session created at agent startup (`src/desci-agent.js`
lines 312-317): schema defaults give `paymentStatus: 'pending'`, and
`calculateQuote` has not run (no quote numbers are defined). -/
def agentInitState : AgentState :=
  { relatedPapers := []
    quote := none
    paymentStatus := .pending
    paidCache := []
    ledgerTransfers := 0 }

/-- JS truthiness of `chatSession.quote`.  `quote` is declared in
`ChatSchema` as an object literal (`src/desci-agent.js` lines 91-96),
which mongoose compiles to a nested path, not a subdocument: the
document always carries an object there (its `papers: Array` subpath
even defaults to `[]`), whether or not `calculateQuote` has ever run.
An object is truthy in JS, so this is constantly `true` — the `/pay`
guard `if (!chatSession.quote)` (line 377) can never fire. -/
def quoteTruthy : Option AgentQuote → Bool
  | _ => true

/-- `paidPapersCache.set(paperId, true)`: insert a key into the map,
modelled as its key list without duplicates. -/
def cacheInsert (c : List String) (id : String) : List String :=
  if id ∈ c then c else c ++ [id]

/-- Insert every selected paper id into the paid cache
(`src/desci-agent.js` lines 235-237). -/
def cacheInsertAll (c : List String) (ids : List String) : List String :=
  ids.foldl cacheInsert c

/-- `setRelatedPapers` (`src/desci-agent.js` lines 109-117): replace
the session's related papers by the snapshot of the given search
results. -/
def setRelatedPapers (s : AgentState) (papers : List PaperDocument) :
    AgentState :=
  { s with relatedPapers :=
      papers.map (fun p => ⟨p.paperId, p.title, p.fee, p.contentTopicId⟩) }

/-- `processPayment` (`src/desci-agent.js` lines 224-244): the demo
"payment" marks the session paid and records the selected paper ids in
the in-memory cache; no ledger transaction is built or executed. -/
def processPayment (s : AgentState) : AgentState :=
  { s with paymentStatus := .paid
           paidCache := cacheInsertAll s.paidCache
             (s.relatedPapers.map PaperRef.paperId) }

/-- One user input to the agent loop (`askQuestion`,
`src/desci-agent.js` lines 320-462).  `search` and `question` carry
the list of papers the database search returns for the input (the
store is external to the agent's session state); `/exit` terminates
the loop and is not a state transition. -/
inductive AgentCmd where
  | search (rawQuery : String) (results : List PaperDocument)
  | quoteCmd
  | pay
  | question (text : String) (results : List PaperDocument)
deriving Repr

/-- One iteration of `askQuestion`:
* `/search q`: an all-whitespace query is refused, otherwise the
  results become the session's related papers (lines 331-352);
* `/quote`: refused unless papers are selected, otherwise the quote is
  computed with the default 5 percent platform fee (lines 354-374);
* `/pay`: the guard `if (!chatSession.quote)` tests the truthiness of
  the nested `quote` path, which is always an object (`quoteTruthy`),
  so it never refuses; a no-op when already paid; otherwise
  `processPayment` runs (lines 376-435);
* any other input is a research question: the search results replace
  the related papers and a quote is computed unconditionally, even
  when the search returned nothing (lines 436-454). -/
def agentStep (s : AgentState) : AgentCmd → AgentState
  | .search rawQuery results =>
    if jsTrim rawQuery == "" then s
    else setRelatedPapers s results
  | .quoteCmd =>
    if s.relatedPapers.isEmpty then s
    else { s with quote := some (calculateQuote s.relatedPapers 5) }
  | .pay =>
    if !quoteTruthy s.quote then s
    else if s.paymentStatus = .paid then s
    else processPayment s
  | .question _text results =>
    let s1 := setRelatedPapers s results
    { s1 with quote := some (calculateQuote s1.relatedPapers 5) }

/-- Run the agent loop from the fresh session over a list of inputs. -/
def agentRun (cs : List AgentCmd) : AgentState :=
  cs.foldl agentStep agentInitState

/-- A concrete stored paper reused by the concrete instances below. -/
def demoPaper : PaperDocument :=
  { paperId := "p1", title := "Alpha", authors := ["A"],
    abstract := "Beta", keywords := [], publisherId := "pub1",
    fee := 5, contentTopicId := "0.0.100", accessCount := 0,
    lastAccessedAt := none, content := none }

/-- A second stored paper for the search instances. -/
def demoPaperB : PaperDocument :=
  { paperId := "p2", title := "Gamma Study", authors := ["B"],
    abstract := "Delta", keywords := ["epsilon"], publisherId := "pub2",
    fee := 15, contentTopicId := "0.0.101", accessCount := 3,
    lastAccessedAt := none, content := some "raw body" }

theorem sortedByScoreDesc_cons (q : String) (x : PaperDocument)
    (l : List PaperDocument) :
    sortedByScoreDesc q (x :: l) ↔
      (∀ y ∈ l, textScore q y ≤ textScore q x) ∧ sortedByScoreDesc q l := by
  induction l generalizing x with
  | nil => simp [sortedByScoreDesc]
  | cons b rest ih =>
    constructor
    · intro h
      obtain ⟨hbx, hrest⟩ := h
      obtain ⟨hall, hr⟩ := (ih b).mp hrest
      refine ⟨?_, hrest⟩
      intro y hy
      rcases List.mem_cons.mp hy with hy | hy
      · exact hy ▸ hbx
      · exact le_trans (hall y hy) hbx
    · intro h
      exact ⟨h.1 b (List.mem_cons_self b rest), h.2⟩

theorem mem_insertByScoreDesc (q : String) (p y : PaperDocument)
    (l : List PaperDocument) :
    y ∈ insertByScoreDesc q p l ↔ y = p ∨ y ∈ l := by
  induction l with
  | nil => simp [insertByScoreDesc]
  | cons x xs ih =>
    simp only [insertByScoreDesc]
    split
    · simp [List.mem_cons]
    · simp only [List.mem_cons, ih]
      tauto

theorem sorted_insertByScoreDesc (q : String) (p : PaperDocument)
    (l : List PaperDocument) (h : sortedByScoreDesc q l) :
    sortedByScoreDesc q (insertByScoreDesc q p l) := by
  induction l with
  | nil => exact trivial
  | cons x xs ih =>
    simp only [insertByScoreDesc]
    split
    · rename_i hle
      refine (sortedByScoreDesc_cons q p (x :: xs)).mpr ⟨?_, h⟩
      intro y hy
      rcases List.mem_cons.mp hy with hy | hy
      · exact hy ▸ hle
      · exact le_trans (((sortedByScoreDesc_cons q x xs).mp h).1 y hy) hle
    · rename_i hgt
      have hle : textScore q p ≤ textScore q x := le_of_not_le hgt
      obtain ⟨hall, hxs⟩ := (sortedByScoreDesc_cons q x xs).mp h
      refine (sortedByScoreDesc_cons q x _).mpr ⟨?_, ih hxs⟩
      intro y hy
      rcases (mem_insertByScoreDesc q p y xs).mp hy with hy | hy
      · exact hy ▸ hle
      · exact hall y hy

theorem sorted_sortByScoreDesc (q : String) (l : List PaperDocument) :
    sortedByScoreDesc q (sortByScoreDesc q l) := by
  induction l with
  | nil => exact trivial
  | cons x xs ih => exact sorted_insertByScoreDesc q x _ ih

/-- C2: a paper-creation payload whose `title` field is absent is
answered with status 400 (`'Missing required fields'`) and the store
is unchanged by the request. -/
theorem C2_missing_title_rejected (mainTopicId : String)
    (store : List PaperDocument) (b : CreatePayload) (h : b.title = none) :
    (createPaper mainTopicId store b).1
        = CreateResponse.badRequest "Missing required fields"
    ∧ ((createPaper mainTopicId store b).1).status = 400
    ∧ (createPaper mainTopicId store b).2 = store := by
  have ht : strTruthy b.title = false := by rw [h]; rfl
  refine ⟨?_, ?_, ?_⟩ <;> simp [createPaper, ht, CreateResponse.status]

/-- Witness for C2 at a concrete payload with no `title`. -/
theorem C2_witness :
    (createPaper "0.0.100" [demoPaper]
        { paperId := some "p9", title := none, authors := .arr ["A"],
          abstract := some "Ab", keywords := .missing,
          publisherId := some "pub", fee := .num 5 }).1
        = CreateResponse.badRequest "Missing required fields"
    ∧ ((createPaper "0.0.100" [demoPaper]
        { paperId := some "p9", title := none, authors := .arr ["A"],
          abstract := some "Ab", keywords := .missing,
          publisherId := some "pub", fee := .num 5 }).1).status = 400
    ∧ (createPaper "0.0.100" [demoPaper]
        { paperId := some "p9", title := none, authors := .arr ["A"],
          abstract := some "Ab", keywords := .missing,
          publisherId := some "pub", fee := .num 5 }).2 = [demoPaper] :=
  C2_missing_title_rejected "0.0.100" [demoPaper] _ rfl

/-- `reduce((total, paper) => total + paper.fee, 0)` computes the sum
of the fees. -/
theorem foldl_add_fee (l : List PaperRef) (init : ℚ) :
    l.foldl (fun total paper => total + paper.fee) init
      = init + (l.map PaperRef.fee).sum := by
  induction l generalizing init with
  | nil => simp
  | cons x xs ih => simp [List.foldl_cons, ih, List.sum_cons]; ring

/-- C6: for a session with a non-empty selection, `calculateQuote`
produces `papersCost` equal to the sum of the selected fees,
`platformFee` equal to `papersCost` times the platform-fee percentage
(5 at both call sites) over 100, and `totalCost` equal to their sum. -/
theorem C6_quote_arithmetic (papers : List PaperRef)
    (platformFeePercent : ℚ) (h : papers ≠ []) :
    (calculateQuote papers platformFeePercent).papersCost
        = (papers.map PaperRef.fee).sum
    ∧ (calculateQuote papers platformFeePercent).platformFee
        = (papers.map PaperRef.fee).sum * platformFeePercent / 100
    ∧ (calculateQuote papers platformFeePercent).totalCost
        = (calculateQuote papers platformFeePercent).papersCost
            + (calculateQuote papers platformFeePercent).platformFee := by
  refine ⟨?_, ?_, rfl⟩ <;> simp [calculateQuote, foldl_add_fee]

/-- Witness for C6 at a concrete two-paper selection. -/
theorem C6_witness :
    (calculateQuote [⟨"p1", "T1", 5, "0.0.1"⟩, ⟨"p2", "T2", 15, "0.0.2"⟩] 5).papersCost
        = (([⟨"p1", "T1", 5, "0.0.1"⟩, ⟨"p2", "T2", 15, "0.0.2"⟩] : List PaperRef).map PaperRef.fee).sum
    ∧ (calculateQuote [⟨"p1", "T1", 5, "0.0.1"⟩, ⟨"p2", "T2", 15, "0.0.2"⟩] 5).platformFee
        = (([⟨"p1", "T1", 5, "0.0.1"⟩, ⟨"p2", "T2", 15, "0.0.2"⟩] : List PaperRef).map PaperRef.fee).sum * 5 / 100
    ∧ (calculateQuote [⟨"p1", "T1", 5, "0.0.1"⟩, ⟨"p2", "T2", 15, "0.0.2"⟩] 5).totalCost
        = (calculateQuote [⟨"p1", "T1", 5, "0.0.1"⟩, ⟨"p2", "T2", 15, "0.0.2"⟩] 5).papersCost
            + (calculateQuote [⟨"p1", "T1", 5, "0.0.1"⟩, ⟨"p2", "T2", 15, "0.0.2"⟩] 5).platformFee :=
  C6_quote_arithmetic _ 5 (by decide)

/-- C8 counterexample: a successful `GET /api/papers/:id` read of
`demoPaper` leaves the store unchanged — the stored access count is
still 0 afterwards and `lastAccessedAt` is still unset, because the
handler returns the found document without ever calling
`recordAccess`. -/
theorem C8_counterexample :
    (getPaperById [demoPaper] "p1").1 = GetResponse.ok demoPaper
    ∧ (getPaperById [demoPaper] "p1").2 = [demoPaper]
    ∧ demoPaper.accessCount = 0
    ∧ demoPaper.lastAccessedAt = none := by decide

/-- C8 amended: a successful read performs no write at all (the store
after `GET /api/papers/:id` is the store before it, so no access count
changes); the `recordAccess` method — which does increment the access
count by one and set the last-accessed time, but which no code path
invokes — behaves as the claim describes. -/
theorem C8_amended_read_does_not_record (store : List PaperDocument)
    (id : String) (p : PaperDocument) (now : Nat) :
    (getPaperById store id).2 = store
    ∧ (recordAccess p now).accessCount = p.accessCount + 1
    ∧ (recordAccess p now).lastAccessedAt = some now := by
  refine ⟨?_, rfl, rfl⟩
  unfold getPaperById
  split <;> rfl

/-- C9 counterexample: with `NODE_ENV = 'production'`, a store failure
on `GET /api/papers` is answered with the upstream error's message
verbatim, not with the generic redacted message. -/
theorem C9_counterexample :
    getAllPapers "production" (Except.error "connect ECONNREFUSED")
        = ListResponse.serverError "connect ECONNREFUSED"
    ∧ "connect ECONNREFUSED" ≠ "Server error occurred" :=
  ⟨rfl, by decide⟩

/-- C9 amended: route handlers that catch their own upstream failures
answer with the error's message verbatim in every mode; only an error
reaching the top-level middleware is mode-dependent, and there the
verbatim message requires `NODE_ENV` to be exactly `'development'` —
every other value (production included) gets the generic
`'Server error occurred'`. -/
theorem C9_amended_error_messages (nodeEnv msg : String) :
    getAllPapers nodeEnv (Except.error msg) = ListResponse.serverError msg
    ∧ (errorMiddleware nodeEnv msg).status = 500
    ∧ (errorMiddleware nodeEnv msg).message
        = (if nodeEnv == "development" then msg else "Server error occurred") :=
  ⟨rfl, rfl, rfl⟩

/-- C3: an empty or whitespace-only query returns every stored paper
with the `content` attribute projected away; a non-empty query whose
terms match no paper's title/abstract/keywords returns `[]`; and a
non-empty query's results are ordered by descending text score. -/
theorem C3_searchPapers (query : String) (store : List PaperDocument) :
    (jsTrim query = "" → searchPapers query store = store.map excludeContent)
    ∧ (jsTrim query ≠ "" → (∀ p ∈ store, textMatches query p = false) →
        searchPapers query store = [])
    ∧ (jsTrim query ≠ "" → sortedByScoreDesc query (searchPapers query store)) := by
  refine ⟨?_, ?_, ?_⟩
  · intro h
    simp [searchPapers, h]
  · intro h hn
    have hf : store.filter (textMatches query) = [] := by
      rw [List.filter_eq_nil_iff]
      intro p hp
      simp [hn p hp]
    simp [searchPapers, h, hf, sortByScoreDesc]
  · intro h
    simp only [searchPapers, beq_iff_eq, if_neg h]
    exact sorted_sortByScoreDesc query _

/-- Witness for C3: a query matching neither demo paper returns the
empty list, the empty result is (vacuously) score-sorted, and the
blank query returns the full listing with `content` stripped. -/
theorem C3_witness :
    searchPapers "zzz unrelated" [demoPaper, demoPaperB] = []
    ∧ sortedByScoreDesc "zzz unrelated"
        (searchPapers "zzz unrelated" [demoPaper, demoPaperB])
    ∧ searchPapers " " [demoPaper, demoPaperB]
        = [demoPaper, demoPaperB].map excludeContent := by
  have h1 := C3_searchPapers "zzz unrelated" [demoPaper, demoPaperB]
  have h2 := C3_searchPapers " " [demoPaper, demoPaperB]
  exact ⟨h1.2.1 (by decide) (by decide), h1.2.2 (by decide), h2.1 (by decide)⟩

/-- C4: a multipart upload whose file exceeds the 30 MB multer ceiling
is rejected with a 400 and no paper metadata record is created: the
store after the request is the store before it. -/
theorem C4_oversize_upload_rejected (newTopicId : String)
    (store : List PaperDocument) (b : UploadPayload) (f : UploadedFile)
    (h : f.size > uploadLimitBytes) :
    ((uploadRoute newTopicId store b (some f)).1).status = 400
    ∧ (uploadRoute newTopicId store b (some f)).2 = store := by
  unfold uploadRoute multerSingle
  by_cases hft : fileTypeOk f
  · simp [hft, h, CreateResponse.status]
  · simp [hft, CreateResponse.status]

/-- Witness for C4 at a 30 MB + 1 byte PDF. -/
theorem C4_witness :
    ((uploadRoute "0.0.7" [demoPaper]
        { paperId := some "p9", title := some "T", authors := .arr ["A"],
          authorsBracket := .missing, abstract := some "Ab",
          keywords := .missing, keywordsBracket := .missing,
          publisherId := some "pub", fee := .num 5 }
        (some { size := 30 * 1024 * 1024 + 1, originalname := "paper.pdf",
                mimetype := "application/pdf" })).1).status = 400
    ∧ (uploadRoute "0.0.7" [demoPaper]
        { paperId := some "p9", title := some "T", authors := .arr ["A"],
          authorsBracket := .missing, abstract := some "Ab",
          keywords := .missing, keywordsBracket := .missing,
          publisherId := some "pub", fee := .num 5 }
        (some { size := 30 * 1024 * 1024 + 1, originalname := "paper.pdf",
                mimetype := "application/pdf" })).2 = [demoPaper] :=
  C4_oversize_upload_rejected "0.0.7" [demoPaper] _ _ (by decide)

/-- A truthy scalar field carries a non-empty string. -/
theorem strTruthy_getD (o : Option String) (h : strTruthy o = true) :
    o.getD "" ≠ "" := by
  cases o with
  | none => simp [strTruthy] at h
  | some s => simpa [strTruthy, bne_iff_ne] using h

/-- Successful path of `POST /api/papers`: when the required fields
are truthy, the main topic id and every author entry are non-empty
(so mongoose validation passes) and the submitted id is fresh (so the
unique index accepts the insert), the route answers 201 and appends
exactly the built document. -/
theorem createPaper_ok (mainTopicId : String) (store : List PaperDocument)
    (b : CreatePayload)
    (hmt : mainTopicId ≠ "")
    (h1 : strTruthy b.paperId = true) (h2 : strTruthy b.title = true)
    (h3 : b.authors.truthy = true) (h4 : strTruthy b.abstract = true)
    (h5 : strTruthy b.publisherId = true)
    (h6 : ∀ a ∈ b.authors.toAuthorsList, a ≠ "")
    (h7 : ∀ p ∈ store, p.paperId ≠ b.paperId.getD "") :
    createPaper mainTopicId store b =
      (CreateResponse.created (b.paperId.getD "") (b.title.getD ""),
        store ++ [mkCreatedPaper mainTopicId b]) := by
  have hvalid : validPaperDoc (mkCreatedPaper mainTopicId b) = true := by
    simp only [validPaperDoc, mkCreatedPaper, Bool.and_eq_true, bne_iff_ne,
      List.all_eq_true]
    exact ⟨⟨⟨⟨⟨strTruthy_getD _ h1, strTruthy_getD _ h2⟩, strTruthy_getD _ h4⟩,
      hmt⟩, strTruthy_getD _ h5⟩, h6⟩
  have hdup : (store.any fun q =>
      q.paperId == (mkCreatedPaper mainTopicId b).paperId) = false := by
    rw [List.any_eq_false]
    intro p hp
    simp only [mkCreatedPaper, beq_iff_eq]
    exact h7 p hp
  have hsave : savePaper store (mkCreatedPaper mainTopicId b)
      = .ok (store ++ [mkCreatedPaper mainTopicId b]) := by
    simp [savePaper, hvalid, hdup]
  simp only [createPaper, h1, h2, h3, h4, h5, Bool.and_self, Bool.true_and,
    if_true, hsave]
  rfl

/-- Appending a document whose id is fresh makes `findOne` on that id
return it. -/
theorem find?_append_fresh (store : List PaperDocument) (p : PaperDocument)
    (h : ∀ x ∈ store, x.paperId ≠ p.paperId) :
    (store ++ [p]).find? (fun x => x.paperId == p.paperId) = some p := by
  induction store with
  | nil => simp
  | cons a as ih =>
    have ha : (a.paperId == p.paperId) = false :=
      beq_eq_false_iff_ne.mpr (h a (List.mem_cons_self a as))
    simp only [List.cons_append, List.find?_cons, ha]
    exact ih (fun x hx => h x (List.mem_cons_of_mem a hx))

/-- C1 counterexample: the payload below is valid in the claim's sense
(paperId, title, authors, abstract, publisherId all present), yet
against a store already holding `demoPaper` (paperId `p1`) the route
answers 500 with the duplicate-key error and persists nothing — it
does not return a paper whose id equals the submitted id. -/
theorem C1_counterexample :
    (strTruthy (some "p1") = true ∧ strTruthy (some "New Title") = true
      ∧ BodyField.truthy (.arr ["N"]) = true
      ∧ strTruthy (some "New Abstract") = true
      ∧ strTruthy (some "pub2") = true)
    ∧ (createPaper "0.0.100" [demoPaper]
        { paperId := some "p1", title := some "New Title",
          authors := .arr ["N"], abstract := some "New Abstract",
          keywords := .missing, publisherId := some "pub2",
          fee := .num 5 }).1
        = CreateResponse.serverError "E11000 duplicate key error"
    ∧ ((createPaper "0.0.100" [demoPaper]
        { paperId := some "p1", title := some "New Title",
          authors := .arr ["N"], abstract := some "New Abstract",
          keywords := .missing, publisherId := some "pub2",
          fee := .num 5 }).1).status = 500
    ∧ (createPaper "0.0.100" [demoPaper]
        { paperId := some "p1", title := some "New Title",
          authors := .arr ["N"], abstract := some "New Abstract",
          keywords := .missing, publisherId := some "pub2",
          fee := .num 5 }).2 = [demoPaper] := by decide

/-- C1 amended: for a valid creation payload whose submitted id is not
already stored, whose author entries are non-empty strings and with
the registry topic configured, the route answers 201 echoing the
submitted id, and a subsequent fetch by that id returns a document
carrying the submitted title, authors (normalized to a list when a
single string was submitted) and abstract. -/
theorem C1_create_then_fetch (mainTopicId : String)
    (store : List PaperDocument) (b : CreatePayload)
    (hmt : mainTopicId ≠ "")
    (h1 : strTruthy b.paperId = true) (h2 : strTruthy b.title = true)
    (h3 : b.authors.truthy = true) (h4 : strTruthy b.abstract = true)
    (h5 : strTruthy b.publisherId = true)
    (h6 : ∀ a ∈ b.authors.toAuthorsList, a ≠ "")
    (h7 : ∀ p ∈ store, p.paperId ≠ b.paperId.getD "") :
    (createPaper mainTopicId store b).1
        = CreateResponse.created (b.paperId.getD "") (b.title.getD "")
    ∧ ∃ p, (getPaperById (createPaper mainTopicId store b).2
              (b.paperId.getD "")).1 = GetResponse.ok p
        ∧ p.paperId = b.paperId.getD ""
        ∧ p.title = b.title.getD ""
        ∧ p.authors = b.authors.toAuthorsList
        ∧ p.abstract = b.abstract.getD "" := by
  have hok := createPaper_ok mainTopicId store b hmt h1 h2 h3 h4 h5 h6 h7
  rw [hok]
  refine ⟨rfl, ⟨mkCreatedPaper mainTopicId b, ?_, rfl, rfl, rfl, rfl⟩⟩
  have hfind : List.find? (fun p => p.paperId == b.paperId.getD "")
      (store ++ [mkCreatedPaper mainTopicId b])
      = some (mkCreatedPaper mainTopicId b) :=
    find?_append_fresh store (mkCreatedPaper mainTopicId b) h7
  simp only [getPaperById, hfind]

/-- Witness for the amended C1 at a concrete fresh payload. -/
theorem C1_witness :
    (createPaper "0.0.100" [demoPaper]
        { paperId := some "p9", title := some "Fresh Title",
          authors := .arr ["N"], abstract := some "Fresh Abstract",
          keywords := .missing, publisherId := some "pub2",
          fee := .num 7 }).1
        = CreateResponse.created "p9" "Fresh Title"
    ∧ ∃ p, (getPaperById (createPaper "0.0.100" [demoPaper]
            { paperId := some "p9", title := some "Fresh Title",
              authors := .arr ["N"], abstract := some "Fresh Abstract",
              keywords := .missing, publisherId := some "pub2",
              fee := .num 7 }).2 "p9").1 = GetResponse.ok p
        ∧ p.paperId = "p9"
        ∧ p.title = "Fresh Title"
        ∧ p.authors = ["N"]
        ∧ p.abstract = "Fresh Abstract" :=
  C1_create_then_fetch "0.0.100" [demoPaper] _ (by decide) (by decide)
    (by decide) (by decide) (by decide) (by decide) (by decide) (by decide)

/-- Successful path of `POST /api/papers/upload`: an accepted file
(allowed type, size within the ceiling), non-empty required document
values and a fresh id produce a 201 and append exactly the built
document. -/
theorem uploadRoute_ok (newTopicId : String) (store : List PaperDocument)
    (b : UploadPayload) (f : UploadedFile)
    (hft : fileTypeOk f = true) (hsz : ¬ f.size > uploadLimitBytes)
    (hnt : newTopicId ≠ "")
    (hpid : b.paperId.getD "" ≠ "") (hti : b.title.getD "" ≠ "")
    (hab : b.abstract.getD "" ≠ "") (hpub : b.publisherId.getD "" ≠ "")
    (hau : ∀ a ∈ uploadAuthors b, a ≠ "")
    (hfresh : ∀ x ∈ store, x.paperId ≠ b.paperId.getD "") :
    uploadRoute newTopicId store b (some f) =
      (CreateResponse.created (b.paperId.getD "") (b.title.getD ""),
        store ++ [mkUploadedPaper newTopicId b]) := by
  have hvalid : validPaperDoc (mkUploadedPaper newTopicId b) = true := by
    simp only [validPaperDoc, mkUploadedPaper, Bool.and_eq_true, bne_iff_ne,
      List.all_eq_true]
    exact ⟨⟨⟨⟨⟨hpid, hti⟩, hab⟩, hnt⟩, hpub⟩, hau⟩
  have hdup : (store.any fun q =>
      q.paperId == (mkUploadedPaper newTopicId b).paperId) = false := by
    rw [List.any_eq_false]
    intro p hp
    simp only [mkUploadedPaper, beq_iff_eq]
    exact hfresh p hp
  have hsave : savePaper store (mkUploadedPaper newTopicId b)
      = .ok (store ++ [mkUploadedPaper newTopicId b]) := by
    simp [savePaper, hvalid, hdup]
  simp only [uploadRoute, multerSingle, hft, Bool.not_true,
    Bool.false_eq_true, if_false, hsz, if_neg hsz, hsave]
  rfl

/-- A fee that `parseFloat` maps to NaN or to `0` coalesces to the
default `10`. -/
theorem jsFee_default (f : FeeField)
    (h : parseFloatOpt f = none ∨ parseFloatOpt f = some 0) :
    jsFeeOrDefault f = 10 := by
  rcases h with h | h <;> simp [jsFeeOrDefault, h]

/-- C10: when the submitted `fee` is absent, non-numeric, or `0`
(all of which `parseFloat(fee) || 10` coalesces to the default), the
document a successful creation stores carries fee `10` — on both the
metadata-only endpoint and the file-upload endpoint. -/
theorem C10_fee_defaults
    (mainTopicId newTopicId : String)
    (store1 store2 : List PaperDocument)
    (b : CreatePayload) (ub : UploadPayload) (f : UploadedFile)
    (hbf : parseFloatOpt b.fee = none ∨ parseFloatOpt b.fee = some 0)
    (hubf : parseFloatOpt ub.fee = none ∨ parseFloatOpt ub.fee = some 0)
    (hmt : mainTopicId ≠ "")
    (h1 : strTruthy b.paperId = true) (h2 : strTruthy b.title = true)
    (h3 : b.authors.truthy = true) (h4 : strTruthy b.abstract = true)
    (h5 : strTruthy b.publisherId = true)
    (h6 : ∀ a ∈ b.authors.toAuthorsList, a ≠ "")
    (h7 : ∀ p ∈ store1, p.paperId ≠ b.paperId.getD "")
    (hft : fileTypeOk f = true) (hsz : ¬ f.size > uploadLimitBytes)
    (hnt : newTopicId ≠ "")
    (hpid : ub.paperId.getD "" ≠ "") (hti : ub.title.getD "" ≠ "")
    (hab : ub.abstract.getD "" ≠ "") (hpub : ub.publisherId.getD "" ≠ "")
    (hau : ∀ a ∈ uploadAuthors ub, a ≠ "")
    (hfresh : ∀ x ∈ store2, x.paperId ≠ ub.paperId.getD "") :
    (∃ p, (createPaper mainTopicId store1 b).2 = store1 ++ [p]
        ∧ p.fee = 10)
    ∧ (∃ p, (uploadRoute newTopicId store2 ub (some f)).2 = store2 ++ [p]
        ∧ p.fee = 10) := by
  constructor
  · refine ⟨mkCreatedPaper mainTopicId b, ?_, jsFee_default _ hbf⟩
    rw [createPaper_ok mainTopicId store1 b hmt h1 h2 h3 h4 h5 h6 h7]
  · refine ⟨mkUploadedPaper newTopicId ub, ?_, jsFee_default _ hubf⟩
    rw [uploadRoute_ok newTopicId store2 ub f hft hsz hnt hpid hti hab
      hpub hau hfresh]

/-- Witness for C10: a submitted fee of `0` (metadata endpoint) and a
non-numeric fee (upload endpoint) both store the default fee `10`. -/
theorem C10_witness :
    (∃ p, (createPaper "0.0.100" [demoPaper]
        { paperId := some "p9", title := some "T", authors := .arr ["A"],
          abstract := some "Ab", keywords := .missing,
          publisherId := some "pub", fee := .num 0 }).2
        = [demoPaper] ++ [p] ∧ p.fee = 10)
    ∧ (∃ p, (uploadRoute "0.0.7" [demoPaper]
        { paperId := some "p8", title := some "U", authors := .arr ["B"],
          authorsBracket := .missing, abstract := some "Ub",
          keywords := .missing, keywordsBracket := .missing,
          publisherId := some "pub", fee := .nonNumeric }
        (some { size := 100, originalname := "paper.pdf",
                mimetype := "application/pdf" })).2
        = [demoPaper] ++ [p] ∧ p.fee = 10) :=
  C10_fee_defaults "0.0.100" "0.0.7" [demoPaper] [demoPaper] _ _ _
    (by decide) (by decide) (by decide) (by decide) (by decide) (by decide)
    (by decide) (by decide) (by decide) (by decide) (by decide) (by decide)
    (by decide) (by decide) (by decide) (by decide) (by decide) (by decide)
    (by decide)

/-- A concatenation whose left part is non-empty is non-empty. -/
theorem append_ne_empty_left (s t : String) (h : s ≠ "") : s ++ t ≠ "" := by
  intro he
  apply h
  apply String.ext
  have hd : s.data ++ t.data = ([] : List Char) := by
    have hc := congrArg String.data he
    rwa [String.data_append] at hc
  simpa using (List.append_eq_nil.mp hd).1

/-- The fallback chat reply is never the empty string (both branches
start with the fixed acknowledgement text). -/
theorem fallbackReply_ne_empty (message : String)
    (l : List PaperDocument) : fallbackReply message l ≠ "" := by
  simp only [fallbackReply]
  split <;>
  · repeat apply append_ne_empty_left
    decide

/-- C5 counterexample: with OpenAI configured and the completion
returning the empty string, a chat request over an empty store gets a
200 whose `papers` array is empty but whose `reply` is `""` — not a
non-empty reply as the claim states. -/
theorem C5_counterexample :
    chatRoute (some (fun _ _ => "")) [] "hello" = ChatResult.ok "" [] := rfl

/-- C5 amended: a chat request with a non-empty message matching no
paper is answered 200 with an empty `papers` array; the reply is
guaranteed non-empty on the fallback path (no OpenAI key configured),
while with OpenAI configured the reply is the completion text
verbatim, which the route does not check for non-emptiness. -/
theorem C5_chat_no_match
    (llm : Option (List PaperDocument → String → String))
    (store : List PaperDocument) (message : String)
    (hm : message ≠ "")
    (hn : ∀ p ∈ store, textMatches message p = false) :
    (chatRoute llm store message).status = 200
    ∧ (∃ r, chatRoute llm store message = ChatResult.ok r [])
    ∧ (llm = none →
        ∃ r, chatRoute llm store message = ChatResult.ok r [] ∧ r ≠ "") := by
  have hms : (message == "") = false := beq_eq_false_iff_ne.mpr hm
  have hf : store.filter (textMatches message) = [] := by
    rw [List.filter_eq_nil_iff]
    intro p hp
    simp [hn p hp]
  have hcs : chatSearch message store = [] := by
    unfold chatSearch
    rw [hf]
    rfl
  have hrun : chatRoute llm store message =
      ChatResult.ok
        (match llm with
         | some complete => complete [] message
         | none => fallbackReply message []) [] := by
    simp [chatRoute, hms, hcs]
  refine ⟨?_, ⟨_, hrun⟩, ?_⟩
  · rw [hrun]
    rfl
  · intro hl
    subst hl
    exact ⟨fallbackReply message [], hrun, fallbackReply_ne_empty message []⟩

/-- Witness for the amended C5: a concrete no-match chat request on
the fallback path. -/
theorem C5_witness :
    (chatRoute none [demoPaper] "zzz").status = 200
    ∧ (∃ r, chatRoute none [demoPaper] "zzz" = ChatResult.ok r [])
    ∧ ((none : Option (List PaperDocument → String → String)) = none →
        ∃ r, chatRoute none [demoPaper] "zzz" = ChatResult.ok r [] ∧ r ≠ "") :=
  C5_chat_no_match none [demoPaper] "zzz" (by decide) (by decide)

/-- C7 counterexample: `/pay` issued as the very first command on a
fresh session is not rejected — the guard `if (!chatSession.quote)`
tests a mongoose nested path that is always a truthy object — so the
session reaches the paid state although no quote was ever computed and
no papers were ever selected; and a plain research question whose
search returns no papers still computes a quote, so a session also
becomes quoted with an empty selection.  This refutes "never reaches
paid without first having been quoted", "the pay command is rejected
when no quote exists" and "never becomes quoted without papers having
been selected". -/
theorem C7_counterexample :
    (agentRun [AgentCmd.pay]).paymentStatus = PayStatus.paid
    ∧ (agentRun [AgentCmd.pay]).quote = none
    ∧ (agentRun [AgentCmd.pay]).relatedPapers = []
    ∧ (agentRun [AgentCmd.question "anything" []]).quote.isSome = true
    ∧ (agentRun [AgentCmd.question "anything" []]).relatedPapers = [] := by
  decide

/-- C7 amended: in the agent loop, the `/quote` command is a no-op
when no papers are selected, and `/pay` is a no-op when the session is
already paid; but the missing-quote guard of `/pay` is dead (the
nested `quote` path is always truthy), so on any not-yet-paid session
— quoted or not — `/pay` succeeds, and its only effect is to set the
payment status to `'paid'` and insert the selected paper ids into the
in-memory paid-papers cache, leaving every other component — including
the count of executed ledger transfers — unchanged.  No ledger
transfer is ever executed. -/
theorem C7_agent_loop_guards (s : AgentState) :
    (s.relatedPapers = [] → agentStep s .quoteCmd = s)
    ∧ (s.paymentStatus = .paid → agentStep s .pay = s)
    ∧ (s.paymentStatus ≠ .paid →
        agentStep s .pay =
          { s with paymentStatus := .paid,
                   paidCache := cacheInsertAll s.paidCache
                     (s.relatedPapers.map PaperRef.paperId) }) := by
  refine ⟨?_, ?_, ?_⟩
  · intro hr
    simp [agentStep, hr]
  · intro hp
    simp [agentStep, quoteTruthy, hp]
  · intro hp
    simp [agentStep, quoteTruthy, hp, processPayment]

/-- Witness for the amended C7 at the fresh session (not yet paid, no
papers selected). -/
theorem C7_witness :
    (agentInitState.relatedPapers = [] →
        agentStep agentInitState .quoteCmd = agentInitState)
    ∧ (agentInitState.paymentStatus = .paid →
        agentStep agentInitState .pay = agentInitState)
    ∧ (agentInitState.paymentStatus ≠ .paid →
        agentStep agentInitState .pay =
          { agentInitState with
              paymentStatus := .paid,
              paidCache := cacheInsertAll agentInitState.paidCache
                (agentInitState.relatedPapers.map PaperRef.paperId) }) :=
  C7_agent_loop_guards agentInitState
